import Mathlib

/-!
# Snowland control panel: the Linux application shell

A shallow embedding of `src/control-panel/implementation/linux/snowland_control_panel.cc`.

The shell is a sequence of calls into GLib, GTK and the Flutter embedder.  The
embedding threads an explicit `State` through every function of the source:

* the one field of `struct _SnowlandControlPanel` (`dart_entrypoint_arguments`),
* a counter that numbers the objects the libraries hand out,
* the number of references the shell holds on every object,
* the history of library calls the shell has issued, oldest first.

Library functions are modelled by their documented contract.  Getters without
side effects (`gtk_window_get_screen`, `fl_view_get_engine`, the GObject cast
macros) are not recorded in the history; what they return is read from the
environment `Env` or is a `Handle` derived from their argument.
-/

namespace Snowland

/-! ## Objects, values and library calls -/

/-- Object pointers handed out by the libraries. -/
inductive Handle where
  /-- the `n`-th object created by a constructor call (`*_new`) -/
  | fresh (n : Nat)
  /-- the result of `fl_view_get_engine (view)` -/
  | engine (view : Handle)
  /-- the result of `fl_engine_get_binary_messenger (engine)` -/
  | messenger (engine : Handle)
  deriving DecidableEq, Repr

/-- Contents of an `FlValue`; the source only builds string values. -/
inductive FlValue where
  | string (s : String)
  deriving DecidableEq, Repr

/-- Signal handlers defined by the source file (`G_CALLBACK (...)`). -/
inductive Callback where
  | on_window_delete
  deriving DecidableEq, Repr

/-- The `GdkEvent *` argument of a signal handler; the source never looks at it. -/
abbrev GdkEvent := Nat

/-- Library calls issued by the source, with their arguments (and, for
constructors, the object returned). -/
inductive Call where
  | printf (text : String)
  | g_warning (text : String)
  | g_object_new_application (application_id : String) (non_unique : Bool) (ret : Handle)
  | gtk_application_window_new (ret : Handle)
  | gtk_header_bar_new (ret : Handle)
  | gtk_widget_show (widget : Handle)
  | gtk_header_bar_set_title (bar : Handle) (title : String)
  | gtk_header_bar_set_show_close_button (bar : Handle) (setting : Bool)
  | gtk_window_set_titlebar (window : Handle) (titlebar : Handle)
  | gtk_window_set_title (window : Handle) (title : String)
  | fl_dart_project_new (ret : Handle)
  | fl_dart_project_set_dart_entrypoint_arguments (project : Handle) (argv : Option (List String))
  | fl_view_new (project : Handle) (ret : Handle)
  | fl_standard_method_codec_new (ret : Handle)
  | fl_event_channel_new (messenger : Handle) (name : String) (codec : Handle) (ret : Handle)
  | gtk_window_set_default_size (window : Handle) (width : Int) (height : Int)
  | g_signal_connect (instance_ : Handle) (signal : String) (handler : Callback) (data : Handle)
  | gtk_container_add (container : Handle) (widget : Handle)
  | fl_register_plugins (registry : Handle)
  | gtk_widget_grab_focus (widget : Handle)
  | fl_value_new_string (s : String) (ret : Handle)
  | fl_event_channel_send (channel : Handle) (value : Handle) (payload : FlValue)
  | fl_event_channel_send_end_of_stream (channel : Handle)
  | fl_value_unref (value : Handle)
  | g_object_unref (object : Handle)
  | g_strdupv (copy : Option (List String))
  | g_strfreev (vector : List String)
  | g_application_register (ok : Bool)
  | g_error_free
  | g_application_activate
  | parent_dispose
  deriving DecidableEq, Repr

/-- Ways in which a library call can leave defined behaviour. -/
inductive Fault where
  /-- a read past the end of the block a pointer points into -/
  | out_of_bounds_read
  deriving DecidableEq, Repr

/-! ## State and environment -/

/-- The application instance together with the bookkeeping of the embedding. -/
structure State where
  /-- `char **dart_entrypoint_arguments`; `none` is the null pointer -/
  dart_entrypoint_arguments : Option (List String)
  /-- number of objects created so far -/
  next : Nat
  /-- references the shell holds on each object -/
  refs : Handle → Int
  /-- library calls issued so far, oldest first -/
  trace : List Call

/-- What the shell reads from its surroundings. -/
structure Env where
  /-- whether `GDK_WINDOWING_X11` is defined, that is, whether the GDK the shell
  is built against has its X11 backend (lines 5 and 52) -/
  gdk_windowing_x11 : Bool
  /-- whether the screen of the window is an X11 screen, which is what
  `GDK_IS_X11_SCREEN (gtk_window_get_screen (window))` reports -/
  screen_is_x11 : Bool
  /-- result of `gdk_x11_screen_get_window_manager_name (screen)`; `none` is null -/
  window_manager_name : Option String
  /-- outcome of `g_application_register`: `none` on success, else the message
  of the `GError` it sets -/
  register_error : Option String

/-- Record one library call. -/
def State.emit (s : State) (c : Call) : State :=
  { s with trace := s.trace ++ [c] }

/-- The handle the next constructor call returns. -/
def State.new_handle (s : State) : Handle := Handle.fresh s.next

/-- A constructor that returns a reference owned by the caller (`transfer full`):
the new object starts with one reference held by the shell. -/
def State.construct (s : State) (call : Handle → Call) : State :=
  { s with
    next := s.next + 1
    refs := fun h => if h = s.new_handle then 1 else s.refs h
    trace := s.trace ++ [call s.new_handle] }

/-- A constructor of a `GInitiallyUnowned` widget: the reference returned is
floating, the shell holds none. -/
def State.construct_floating (s : State) (call : Handle → Call) : State :=
  { s with
    next := s.next + 1
    refs := fun h => if h = s.new_handle then 0 else s.refs h
    trace := s.trace ++ [call s.new_handle] }

/-- Drop one reference, as `g_object_unref` / `fl_value_unref` do; `call` is the
release function invoked. -/
def State.release (s : State) (call : Handle → Call) (h : Handle) : State :=
  { s with
    refs := fun x => if x = h then s.refs x - 1 else s.refs x
    trace := s.trace ++ [call h] }

/-- The calls issued between state `s` and a later state `t`. -/
def events_since (s t : State) : List Call := t.trace.drop s.trace.length

/-- An object is live for the shell while the shell holds a reference on it. -/
def live (s : State) (h : Handle) : Bool := decide (0 < s.refs h)

/-- Whether a handle denotes an object that has already been created. -/
def allocated (s : State) : Handle → Bool
  | Handle.fresh n => decide (n < s.next)
  | Handle.engine v => allocated s v
  | Handle.messenger e => allocated s e

/-! ## GLib helpers -/

/-- Lexicographic comparison of two character-code sequences: the sign of the
first difference, a proper initial segment sorting first. -/
def strcmp_codes : List Nat → List Nat → Int
  | [], [] => 0
  | [], _ :: _ => -1
  | _ :: _, [] => 1
  | a :: as, b :: bs => if a < b then -1 else if b < a then 1 else strcmp_codes as bs

/-- C `strcmp`, up to the magnitude of the result. -/
def strcmp (a b : String) : Int :=
  strcmp_codes (a.data.map Char.toNat) (b.data.map Char.toNat)

/-- GLib `g_strcmp0`: like `strcmp`, but null pointers are accepted and sort
before every string. -/
def g_strcmp0 : Option String → Option String → Int
  | none, none => 0
  | none, some _ => -1
  | some _, none => 1
  | some a, some b => strcmp a b

/-- The block of memory that holds a null-terminated string vector (`gchar **`)
with the given entries: one cell per entry and the terminating null cell. -/
def strv_block (entries : List String) : List (Option String) :=
  entries.map some ++ [none]

/-- Read a null-terminated string vector.  The argument lists the cells from
the pointer to the end of the block it points into; running out of cells
before a null cell is found is a read past the block. -/
def strv_read : List (Option String) → Except Fault (List String)
  | [] => Except.error Fault.out_of_bounds_read
  | none :: _ => Except.ok []
  | some str :: rest =>
    match strv_read rest with
    | Except.ok copied => Except.ok (str :: copied)
    | Except.error f => Except.error f

/-- GLib `g_strdupv`: a null pointer is returned as is, otherwise the vector is
copied entry by entry up to its terminator. -/
def g_strdupv (str_array : Option (List (Option String))) : Except Fault (Option (List String)) :=
  match str_array with
  | none => Except.ok none
  | some cells =>
    match strv_read cells with
    | Except.ok copied => Except.ok (some copied)
    | Except.error f => Except.error f

/-! ## The source functions -/

/-- Source `on_window_delete` (lines 20-36).  `data` is the user-data pointer
given at `g_signal_connect`.  Both locals are `g_autoptr`, so they are released
when the function returns, in reverse order of declaration.  The result is
the `gboolean` returned to GTK (`false` lets the close proceed). -/
def on_window_delete (s : State) (_window : Handle) (_event : GdkEvent) (data : Handle) :
    Bool × State :=
  let s := s.emit (Call.printf "Sending shutdown to event channel!\n")
  let channel := data
  let value := s.new_handle
  let s := s.construct (Call.fl_value_new_string "shutdown")
  let s := s.emit (Call.fl_event_channel_send channel value (FlValue.string "shutdown"))
  let s := s.emit (Call.fl_event_channel_send_end_of_stream channel)
  let s := s.release Call.fl_value_unref value
  let s := s.release Call.g_object_unref channel
  (false, s)

/-- Source `snowland_control_panel_activate` (lines 39-95). -/
def snowland_control_panel_activate (env : Env) (s : State) : State :=
  let window := s.new_handle
  let s := s.construct_floating Call.gtk_application_window_new
  let use_header_bar : Bool :=
    if env.gdk_windowing_x11 then
      if env.screen_is_x11 then
        if g_strcmp0 env.window_manager_name (some "GNOME Shell") ≠ 0 then false else true
      else true
    else true
  let s :=
    if use_header_bar then
      let header_bar := s.new_handle
      let s := s.construct_floating Call.gtk_header_bar_new
      let s := s.emit (Call.gtk_widget_show header_bar)
      let s := s.emit (Call.gtk_header_bar_set_title header_bar "Snowland control panel")
      let s := s.emit (Call.gtk_header_bar_set_show_close_button header_bar true)
      s.emit (Call.gtk_window_set_titlebar window header_bar)
    else
      s.emit (Call.gtk_window_set_title window "Snowland control panel")
  let project := s.new_handle
  let s := s.construct Call.fl_dart_project_new
  let s := s.emit
    (Call.fl_dart_project_set_dart_entrypoint_arguments project s.dart_entrypoint_arguments)
  let view := s.new_handle
  let s := s.construct_floating (Call.fl_view_new project)
  let engine := Handle.engine view
  let messenger := Handle.messenger engine
  let codec := s.new_handle
  let s := s.construct Call.fl_standard_method_codec_new
  let platform_channel := s.new_handle
  let s := s.construct (Call.fl_event_channel_new messenger "native_platform_events" codec)
  let s := s.emit (Call.gtk_window_set_default_size window 1280 720)
  let s := s.emit
    (Call.g_signal_connect window "delete-event" Callback.on_window_delete platform_channel)
  let s := s.emit (Call.gtk_widget_show window)
  let s := s.emit (Call.gtk_widget_show view)
  let s := s.emit (Call.gtk_container_add window view)
  let s := s.emit (Call.fl_register_plugins view)
  let s := s.emit (Call.gtk_widget_grab_focus view)
  let s := s.release Call.g_object_unref codec
  let s := s.release Call.g_object_unref messenger
  s.release Call.g_object_unref project

/-- Source `snowland_control_panel_local_command_line` (lines 98-115).
`arguments` are the entries of the null-terminated vector `*arguments`, which
occupies the block `strv_block arguments`; `*arguments + 1` is the pointer one
cell into that block, from which `g_strdupv` can read the remaining cells.
The result is the `gboolean` returned, the value written to `*exit_status`, and
the state. -/
def snowland_control_panel_local_command_line (env : Env) (s : State) (arguments : List String) :
    Except Fault (Bool × Int × State) :=
  match g_strdupv (some ((strv_block arguments).drop 1)) with
  | Except.error f => Except.error f
  | Except.ok copy =>
    let s := { s with dart_entrypoint_arguments := copy }
    let s := s.emit (Call.g_strdupv copy)
    match env.register_error with
    | some message =>
      let s := s.emit (Call.g_application_register false)
      let s := s.emit (Call.g_warning ("Failed to register: " ++ message))
      let s := s.emit Call.g_error_free
      Except.ok (true, 1, s)
    | none =>
      let s := s.emit (Call.g_application_register true)
      let s := s.emit Call.g_application_activate
      let s := snowland_control_panel_activate env s
      Except.ok (true, 0, s)

/-- Source `snowland_control_panel_dispose` (lines 118-122).  `g_clear_pointer`
does nothing on a null field; otherwise it nulls the field and then calls the
destroy function on the old pointer. -/
def snowland_control_panel_dispose (s : State) : State :=
  let s :=
    match s.dart_entrypoint_arguments with
    | none => s
    | some vector => ({ s with dart_entrypoint_arguments := none }).emit (Call.g_strfreev vector)
  s.emit Call.parent_dispose

/-- Source `snowland_control_panel_new` (lines 130-137): instance memory is
zero-filled by GObject and `snowland_control_panel_init` is empty, so the
argument field starts out null.  `APPLICATION_ID` is injected by the build. -/
def snowland_control_panel_new (APPLICATION_ID : String) : State :=
  State.construct
    { dart_entrypoint_arguments := none, next := 0, refs := fun _ => 0, trace := [] }
    (Call.g_object_new_application APPLICATION_ID true)

/-- The exit status a call of `snowland_control_panel_local_command_line`
reports, if the call comes back. -/
def reported_exit_status (r : Except Fault (Bool × Int × State)) : Option Int :=
  match r with
  | Except.ok (_, exit_status, _) => some exit_status
  | Except.error _ => none

/-! ## The lifecycle as a transition system -/

/-- The operations the toolkit can invoke on one application instance. -/
inductive Op where
  /-- `GApplication::local_command_line` with the entries of the argument vector -/
  | local_command_line (arguments : List String)
  /-- `GApplication::activate` -/
  | activate
  /-- the `delete-event` handler, with the user data it was connected with -/
  | window_delete (window : Handle) (event : GdkEvent) (data : Handle)
  /-- `GObject::dispose` -/
  | dispose
  deriving DecidableEq, Repr

/-- One operation of the lifecycle, as wired up by `snowland_control_panel_class_init`
and by `g_signal_connect`. -/
def step (env : Env) (s : State) : Op → Except Fault State
  | Op.local_command_line arguments =>
    match snowland_control_panel_local_command_line env s arguments with
    | Except.ok (_, _, t) => Except.ok t
    | Except.error f => Except.error f
  | Op.activate => Except.ok (snowland_control_panel_activate env s)
  | Op.window_delete window event data => Except.ok (on_window_delete s window event data).2
  | Op.dispose => Except.ok (snowland_control_panel_dispose s)

/-- Run a sequence of operations, stopping at the first fault. -/
def run (env : Env) : State → List Op → Except Fault State
  | s, [] => Except.ok s
  | s, op :: ops =>
    match step env s op with
    | Except.ok t => run env t ops
    | Except.error f => Except.error f

/-- How often a sequence of operations runs `snowland_control_panel_activate`:
once per `activate`, and once per `local_command_line` when registration
succeeds (line 111). -/
def activation_runs (env : Env) : List Op → Nat
  | [] => 0
  | Op.local_command_line _ :: ops =>
    (if env.register_error = none then 1 else 0) + activation_runs env ops
  | Op.activate :: ops => 1 + activation_runs env ops
  | Op.window_delete _ _ _ :: ops => activation_runs env ops
  | Op.dispose :: ops => activation_runs env ops

/-! ## Observations on the call history -/

/-- Windows created, in order. -/
def windows_created (evs : List Call) : List Handle :=
  evs.filterMap fun c =>
    match c with
    | Call.gtk_application_window_new w => some w
    | _ => none

/-- Views created, in order, each with the project it was created from. -/
def views_created (evs : List Call) : List (Handle × Handle) :=
  evs.filterMap fun c =>
    match c with
    | Call.fl_view_new project v => some (project, v)
    | _ => none

/-- Event channels created, in order. -/
def channels_created (evs : List Call) : List Handle :=
  evs.filterMap fun c =>
    match c with
    | Call.fl_event_channel_new _ _ _ ch => some ch
    | _ => none

/-- Calls that decide the window chrome: header bar creation and set-up, and
the plain window title. -/
def chrome_calls (evs : List Call) : List Call :=
  evs.filter fun c =>
    match c with
    | Call.gtk_header_bar_new _ => true
    | Call.gtk_header_bar_set_title _ _ => true
    | Call.gtk_header_bar_set_show_close_button _ _ => true
    | Call.gtk_window_set_titlebar _ _ => true
    | Call.gtk_window_set_title _ _ => true
    | _ => false

/-- What was sent on event channels, in order: the channel and the payload,
`none` standing for the end-of-stream marker. -/
def channel_sends (evs : List Call) : List (Handle × Option FlValue) :=
  evs.filterMap fun c =>
    match c with
    | Call.fl_event_channel_send ch _ payload => some (ch, some payload)
    | Call.fl_event_channel_send_end_of_stream ch => some (ch, none)
    | _ => none

/-- Widgets added to a container, in order. -/
def children_added (container : Handle) (evs : List Call) : List Handle :=
  evs.filterMap fun c =>
    match c with
    | Call.gtk_container_add c2 widget => if c2 = container then some widget else none
    | _ => none

/-- Signal handlers connected, in order. -/
def handlers_connected (evs : List Call) : List (Handle × String × Callback × Handle) :=
  evs.filterMap fun c =>
    match c with
    | Call.g_signal_connect object signal handler data => some (object, signal, handler, data)
    | _ => none

/-- Start-up arguments handed to a Dart project, in order, with the project. -/
def arguments_forwarded (evs : List Call) : List (Handle × Option (List String)) :=
  evs.filterMap fun c =>
    match c with
    | Call.fl_dart_project_set_dart_entrypoint_arguments project argv => some (project, argv)
    | _ => none

/-- String vectors freed, in order. -/
def vectors_freed (evs : List Call) : List (List String) :=
  evs.filterMap fun c =>
    match c with
    | Call.g_strfreev v => some v
    | _ => none

/-! ## Auxiliary facts -/

theorem strcmp_codes_eq_zero_iff (a b : List Nat) : strcmp_codes a b = 0 ↔ a = b := by
  induction a generalizing b with
  | nil => cases b <;> simp [strcmp_codes]
  | cons x xs ih =>
    cases b with
    | nil => simp [strcmp_codes]
    | cons y ys =>
      simp only [strcmp_codes]
      by_cases h1 : x < y
      · simp [h1]; omega
      · by_cases h2 : y < x
        · simp [h1, h2]; omega
        · have : x = y := by omega
          simp [h1, h2, ih, this]

theorem strcmp_eq_zero_iff (a b : String) : strcmp a b = 0 ↔ a = b := by
  unfold strcmp
  rw [strcmp_codes_eq_zero_iff]
  constructor
  · intro h
    have hinj : Function.Injective Char.toNat := by
      intro c d hcd
      exact Char.ext (UInt32.ext (by simpa [Char.toNat] using hcd))
    exact String.ext (List.map_injective_iff.mpr hinj h)
  · intro h; rw [h]

theorem g_strcmp0_eq_zero_iff (a b : Option String) : g_strcmp0 a b = 0 ↔ a = b := by
  cases a <;> cases b <;> simp [g_strcmp0, strcmp_eq_zero_iff]

theorem events_since_of_trace_eq {s t : State} {l : List Call} (h : t.trace = s.trace ++ l) :
    events_since s t = l := by
  unfold events_since
  rw [h]
  exact List.drop_left _ _

/-- The chrome decision of lines 51-60 has two outcomes. -/
theorem chrome_cases (env : Env) :
    (env.gdk_windowing_x11 = true ∧ env.screen_is_x11 = true ∧
      env.window_manager_name ≠ some "GNOME Shell") ∨
    (env.gdk_windowing_x11 = false ∨ env.screen_is_x11 = false ∨
      env.window_manager_name = some "GNOME Shell") := by
  cases env.gdk_windowing_x11 <;> cases env.screen_is_x11 <;>
    by_cases h : env.window_manager_name = some "GNOME Shell" <;> simp [h]

/-- The calls of one activation that falls back to a title bar. -/
theorem activate_trace_title_bar (env : Env) (s : State)
    (h1 : env.gdk_windowing_x11 = true) (h2 : env.screen_is_x11 = true)
    (h3 : env.window_manager_name ≠ some "GNOME Shell") :
    (snowland_control_panel_activate env s).trace = s.trace ++
      [Call.gtk_application_window_new (Handle.fresh s.next),
       Call.gtk_window_set_title (Handle.fresh s.next) "Snowland control panel",
       Call.fl_dart_project_new (Handle.fresh (s.next + 1)),
       Call.fl_dart_project_set_dart_entrypoint_arguments (Handle.fresh (s.next + 1))
         s.dart_entrypoint_arguments,
       Call.fl_view_new (Handle.fresh (s.next + 1)) (Handle.fresh (s.next + 2)),
       Call.fl_standard_method_codec_new (Handle.fresh (s.next + 3)),
       Call.fl_event_channel_new (Handle.messenger (Handle.engine (Handle.fresh (s.next + 2))))
         "native_platform_events" (Handle.fresh (s.next + 3)) (Handle.fresh (s.next + 4)),
       Call.gtk_window_set_default_size (Handle.fresh s.next) 1280 720,
       Call.g_signal_connect (Handle.fresh s.next) "delete-event" Callback.on_window_delete
         (Handle.fresh (s.next + 4)),
       Call.gtk_widget_show (Handle.fresh s.next),
       Call.gtk_widget_show (Handle.fresh (s.next + 2)),
       Call.gtk_container_add (Handle.fresh s.next) (Handle.fresh (s.next + 2)),
       Call.fl_register_plugins (Handle.fresh (s.next + 2)),
       Call.gtk_widget_grab_focus (Handle.fresh (s.next + 2)),
       Call.g_object_unref (Handle.fresh (s.next + 3)),
       Call.g_object_unref (Handle.messenger (Handle.engine (Handle.fresh (s.next + 2)))),
       Call.g_object_unref (Handle.fresh (s.next + 1))] := by
  simp [snowland_control_panel_activate, State.construct, State.construct_floating, State.emit,
    State.release, State.new_handle, h1, h2, h3, g_strcmp0_eq_zero_iff]

/-- The calls of one activation that installs a header bar. -/
theorem activate_trace_header_bar (env : Env) (s : State)
    (h : env.gdk_windowing_x11 = false ∨ env.screen_is_x11 = false ∨
      env.window_manager_name = some "GNOME Shell") :
    (snowland_control_panel_activate env s).trace = s.trace ++
      [Call.gtk_application_window_new (Handle.fresh s.next),
       Call.gtk_header_bar_new (Handle.fresh (s.next + 1)),
       Call.gtk_widget_show (Handle.fresh (s.next + 1)),
       Call.gtk_header_bar_set_title (Handle.fresh (s.next + 1)) "Snowland control panel",
       Call.gtk_header_bar_set_show_close_button (Handle.fresh (s.next + 1)) true,
       Call.gtk_window_set_titlebar (Handle.fresh s.next) (Handle.fresh (s.next + 1)),
       Call.fl_dart_project_new (Handle.fresh (s.next + 2)),
       Call.fl_dart_project_set_dart_entrypoint_arguments (Handle.fresh (s.next + 2))
         s.dart_entrypoint_arguments,
       Call.fl_view_new (Handle.fresh (s.next + 2)) (Handle.fresh (s.next + 3)),
       Call.fl_standard_method_codec_new (Handle.fresh (s.next + 4)),
       Call.fl_event_channel_new (Handle.messenger (Handle.engine (Handle.fresh (s.next + 3))))
         "native_platform_events" (Handle.fresh (s.next + 4)) (Handle.fresh (s.next + 5)),
       Call.gtk_window_set_default_size (Handle.fresh s.next) 1280 720,
       Call.g_signal_connect (Handle.fresh s.next) "delete-event" Callback.on_window_delete
         (Handle.fresh (s.next + 5)),
       Call.gtk_widget_show (Handle.fresh s.next),
       Call.gtk_widget_show (Handle.fresh (s.next + 3)),
       Call.gtk_container_add (Handle.fresh s.next) (Handle.fresh (s.next + 3)),
       Call.fl_register_plugins (Handle.fresh (s.next + 3)),
       Call.gtk_widget_grab_focus (Handle.fresh (s.next + 3)),
       Call.g_object_unref (Handle.fresh (s.next + 4)),
       Call.g_object_unref (Handle.messenger (Handle.engine (Handle.fresh (s.next + 3)))),
       Call.g_object_unref (Handle.fresh (s.next + 2))] := by
  have hb : env.gdk_windowing_x11 = false ∨ env.screen_is_x11 = false ∨
      g_strcmp0 env.window_manager_name (some "GNOME Shell") = 0 := by
    rw [g_strcmp0_eq_zero_iff]; exact h
  simp [snowland_control_panel_activate, State.construct, State.construct_floating, State.emit,
    State.release, State.new_handle, hb]

/-- Activation never writes the argument field. -/
theorem activate_keeps_arguments (env : Env) (s : State) :
    (snowland_control_panel_activate env s).dart_entrypoint_arguments =
      s.dart_entrypoint_arguments := by
  rcases chrome_cases env with ⟨h1, h2, h3⟩ | h
  · simp [snowland_control_panel_activate, State.construct, State.construct_floating,
      State.emit, State.release, State.new_handle, h1, h2, h3, g_strcmp0_eq_zero_iff]
  · have hb : env.gdk_windowing_x11 = false ∨ env.screen_is_x11 = false ∨
        g_strcmp0 env.window_manager_name (some "GNOME Shell") = 0 := by
      rw [g_strcmp0_eq_zero_iff]; exact h
    simp [snowland_control_panel_activate, State.construct, State.construct_floating,
      State.emit, State.release, State.new_handle, hb]

/-- The shell holds one reference on the channel when a title-bar activation returns. -/
theorem activate_refs_title_bar (env : Env) (s : State)
    (h1 : env.gdk_windowing_x11 = true) (h2 : env.screen_is_x11 = true)
    (h3 : env.window_manager_name ≠ some "GNOME Shell") :
    (snowland_control_panel_activate env s).refs (Handle.fresh (s.next + 4)) = 1 ∧
    (snowland_control_panel_activate env s).next = s.next + 5 := by
  simp [snowland_control_panel_activate, State.construct, State.construct_floating, State.emit,
    State.release, State.new_handle, h1, h2, h3, g_strcmp0_eq_zero_iff]

/-- The shell holds one reference on the channel when a header-bar activation returns. -/
theorem activate_refs_header_bar (env : Env) (s : State)
    (h : env.gdk_windowing_x11 = false ∨ env.screen_is_x11 = false ∨
      env.window_manager_name = some "GNOME Shell") :
    (snowland_control_panel_activate env s).refs (Handle.fresh (s.next + 5)) = 1 ∧
    (snowland_control_panel_activate env s).next = s.next + 6 := by
  have hb : env.gdk_windowing_x11 = false ∨ env.screen_is_x11 = false ∨
      g_strcmp0 env.window_manager_name (some "GNOME Shell") = 0 := by
    rw [g_strcmp0_eq_zero_iff]; exact h
  simp [snowland_control_panel_activate, State.construct, State.construct_floating, State.emit,
    State.release, State.new_handle, hb]

/-- Activation only appends to the call history. -/
theorem activate_trace_extends (env : Env) (s : State) :
    (snowland_control_panel_activate env s).trace =
      s.trace ++ events_since s (snowland_control_panel_activate env s) := by
  rcases chrome_cases env with ⟨h1, h2, h3⟩ | h
  · have ht := activate_trace_title_bar env s h1 h2 h3
    rw [events_since_of_trace_eq ht]; exact ht
  · have ht := activate_trace_header_bar env s h
    rw [events_since_of_trace_eq ht]; exact ht

/-- Activation hands the stored argument vector, as it is, to the one project
it creates, and builds its one view from that project. -/
theorem activate_forwards_stored_arguments (env : Env) (s : State) :
    ∃ project view,
      arguments_forwarded (events_since s (snowland_control_panel_activate env s)) =
        [(project, s.dart_entrypoint_arguments)] ∧
      views_created (events_since s (snowland_control_panel_activate env s)) =
        [(project, view)] := by
  rcases chrome_cases env with ⟨h1, h2, h3⟩ | h
  · rw [events_since_of_trace_eq (activate_trace_title_bar env s h1 h2 h3)]
    exact ⟨Handle.fresh (s.next + 1), Handle.fresh (s.next + 2),
      by simp [arguments_forwarded], by simp [views_created]⟩
  · rw [events_since_of_trace_eq (activate_trace_header_bar env s h)]
    exact ⟨Handle.fresh (s.next + 2), Handle.fresh (s.next + 3),
      by simp [arguments_forwarded], by simp [views_created]⟩

/-- Reading a whole vector block returns its entries. -/
theorem strv_read_block (entries : List String) :
    strv_read (strv_block entries) = Except.ok entries := by
  induction entries with
  | nil => rfl
  | cons a rest ih =>
    have h : strv_block (a :: rest) = some a :: strv_block rest := rfl
    rw [h, strv_read, ih]

/-- Copying from the second cell of a non-empty vector yields its tail. -/
theorem g_strdupv_skip_first (a : String) (rest : List String) :
    g_strdupv (some ((strv_block (a :: rest)).drop 1)) = Except.ok (some rest) := by
  have h : (strv_block (a :: rest)).drop 1 = strv_block rest := rfl
  rw [h, g_strdupv, strv_read_block]

/-- With a program name present and registration failing, the command line is
handled with exit status 1 and activation is not run. -/
theorem local_command_line_register_failure (env : Env) (s : State) (a : String)
    (rest : List String) (message : String) (h : env.register_error = some message) :
    snowland_control_panel_local_command_line env s (a :: rest) =
      Except.ok (true, 1,
        (((({ s with dart_entrypoint_arguments := some rest } : State).emit
          (Call.g_strdupv (some rest))).emit
          (Call.g_application_register false)).emit
          (Call.g_warning ("Failed to register: " ++ message))).emit Call.g_error_free) := by
  unfold snowland_control_panel_local_command_line
  rw [g_strdupv_skip_first]
  simp [h]

/-- With a program name present and registration succeeding, the command line
is handled with exit status 0 after one run of activation. -/
theorem local_command_line_register_success (env : Env) (s : State) (a : String)
    (rest : List String) (h : env.register_error = none) :
    snowland_control_panel_local_command_line env s (a :: rest) =
      Except.ok (true, 0,
        snowland_control_panel_activate env
          (((({ s with dart_entrypoint_arguments := some rest } : State).emit
            (Call.g_strdupv (some rest))).emit
            (Call.g_application_register true)).emit Call.g_application_activate)) := by
  unfold snowland_control_panel_local_command_line
  rw [g_strdupv_skip_first]
  simp [h]

/-- One run of activation adds one window and one channel to those created. -/
theorem activate_adds_one_window_one_channel (env : Env) (s : State) :
    (windows_created (snowland_control_panel_activate env s).trace).length =
      (windows_created s.trace).length + 1 ∧
    (channels_created (snowland_control_panel_activate env s).trace).length =
      (channels_created s.trace).length + 1 := by
  rcases chrome_cases env with ⟨h1, h2, h3⟩ | h
  · rw [activate_trace_title_bar env s h1 h2 h3]
    simp [windows_created, channels_created, List.filterMap_append]
  · rw [activate_trace_header_bar env s h]
    simp [windows_created, channels_created, List.filterMap_append]

/-! ## Claims about `snowland_control_panel_local_command_line` -/

/-- Whatever the outcome of registration, a vector with a program name is
handled (TRUE is returned) and its tail is stored. -/
theorem local_command_line_stores_tail (env : Env) (s : State) (a : String)
    (rest : List String) :
    ∃ exit_status t,
      snowland_control_panel_local_command_line env s (a :: rest) =
        Except.ok (true, exit_status, t) ∧
      t.dart_entrypoint_arguments = some rest ∧
      (exit_status = 0 ↔ env.register_error = none) ∧
      (exit_status = 1 ↔ env.register_error ≠ none) := by
  cases hreg : env.register_error with
  | none =>
    refine ⟨0, _, local_command_line_register_success env s a rest hreg, ?_, by simp, by simp⟩
    rw [activate_keeps_arguments]
    rfl
  | some message =>
    exact ⟨1, _, local_command_line_register_failure env s a rest message hreg, rfl,
      by simp, by simp⟩

/-- With a program name present, failing registration issues four calls, none
of which belongs to activation: no window and no channel is created. -/
theorem registration_failure_skips_activation (env : Env) (s : State) (a : String)
    (rest : List String) (message : String) (h : env.register_error = some message) :
    ∃ t,
      snowland_control_panel_local_command_line env s (a :: rest) = Except.ok (true, 1, t) ∧
      events_since s t =
        [Call.g_strdupv (some rest), Call.g_application_register false,
         Call.g_warning ("Failed to register: " ++ message), Call.g_error_free] ∧
      windows_created (events_since s t) = [] ∧
      channels_created (events_since s t) = [] := by
  refine ⟨_, local_command_line_register_failure env s a rest message h, ?_⟩
  have ht : events_since s
      ((((({ s with dart_entrypoint_arguments := some rest } : State).emit
          (Call.g_strdupv (some rest))).emit
          (Call.g_application_register false)).emit
          (Call.g_warning ("Failed to register: " ++ message))).emit Call.g_error_free) =
      [Call.g_strdupv (some rest), Call.g_application_register false,
       Call.g_warning ("Failed to register: " ++ message), Call.g_error_free] :=
    events_since_of_trace_eq (by simp [State.emit])
  rw [ht]
  simp [windows_created, channels_created]

/-- With a program name present, succeeding registration is followed by one
`g_application_activate` and one run of activation: one window, one channel. -/
theorem registration_success_activates_once (env : Env) (s : State) (a : String)
    (rest : List String) (h : env.register_error = none) :
    ∃ t,
      snowland_control_panel_local_command_line env s (a :: rest) = Except.ok (true, 0, t) ∧
      (windows_created t.trace).length = (windows_created s.trace).length + 1 ∧
      (channels_created t.trace).length = (channels_created s.trace).length + 1 ∧
      t.trace.count Call.g_application_activate =
        s.trace.count Call.g_application_activate + 1 := by
  refine ⟨_, local_command_line_register_success env s a rest h, ?_⟩
  generalize hs2 : ((({ s with dart_entrypoint_arguments := some rest } : State).emit
      (Call.g_strdupv (some rest))).emit
      (Call.g_application_register true)).emit Call.g_application_activate = s2
  have h2 : s2.trace = s.trace ++ [Call.g_strdupv (some rest),
      Call.g_application_register true, Call.g_application_activate] := by
    rw [← hs2]; simp [State.emit]
  obtain ⟨hw, hc⟩ := activate_adds_one_window_one_channel env s2
  refine ⟨?_, ?_, ?_⟩
  · rw [hw, h2]; simp [windows_created, List.filterMap_append]
  · rw [hc, h2]; simp [channels_created, List.filterMap_append]
  · rcases chrome_cases env with ⟨h1, h2', h3⟩ | hh
    · rw [activate_trace_title_bar env s2 h1 h2' h3, h2]
      simp [List.count_append, List.count_cons]
    · rw [activate_trace_header_bar env s2 hh, h2]
      simp [List.count_append, List.count_cons]

/-- C1: with an empty argument vector (`*arguments` holds only the
terminating null), `*arguments + 1` points past the block, and the copy at line
102 reads out of bounds: no argument list, empty or otherwise, is stored. -/
theorem local_command_line_empty_vector_reads_out_of_bounds (env : Env) (s : State) :
    snowland_control_panel_local_command_line env s [] =
      Except.error Fault.out_of_bounds_read := rfl

/-- C2: with an empty argument vector and failing registration, the function
does not report exit status 1: the out-of-bounds copy at line 102 precedes the
registration call, and no exit status is reported at all. -/
theorem registration_failure_unreported_on_empty_vector (env : Env) (s : State)
    (message : String) :
    reported_exit_status (snowland_control_panel_local_command_line
      { env with register_error := some message } s []) = none := rfl

/-- C4: with an empty argument vector and succeeding registration, the
function neither reaches activation nor reports exit status 0: the lifecycle
stops at the out-of-bounds copy of line 102, whatever operations were to
follow. -/
theorem activation_unreached_on_empty_vector (env : Env) (s : State) (ops : List Op) :
    reported_exit_status (snowland_control_panel_local_command_line
      { env with register_error := none } s []) = none ∧
    run { env with register_error := none } s (Op.local_command_line [] :: ops) =
      Except.error Fault.out_of_bounds_read := ⟨rfl, rfl⟩

/-- C8: for an argument vector with at least one entry and successful
registration, the command line is handled with exit status 0, the one project
set up by activation receives exactly the vector without its first entry,
the one view is built from that project, and the stored vector is that same
tail; activation in general passes the stored vector on unchanged and leaves
the field as it was. -/
theorem entrypoint_arguments_forwarded_verbatim (env : Env) (s : State)
    (arguments : List String) (hlen : 1 ≤ arguments.length)
    (hreg : env.register_error = none) :
    (∃ t project view,
      snowland_control_panel_local_command_line env s arguments = Except.ok (true, 0, t) ∧
      arguments_forwarded (events_since s t) = [(project, some arguments.tail)] ∧
      views_created (events_since s t) = [(project, view)] ∧
      t.dart_entrypoint_arguments = some arguments.tail) ∧
    (∀ (env2 : Env) (s2 : State), ∃ project,
      arguments_forwarded (events_since s2 (snowland_control_panel_activate env2 s2)) =
        [(project, s2.dart_entrypoint_arguments)] ∧
      (snowland_control_panel_activate env2 s2).dart_entrypoint_arguments =
        s2.dart_entrypoint_arguments) := by
  constructor
  · cases arguments with
    | nil => simp at hlen
    | cons a rest =>
      rw [local_command_line_register_success env s a rest hreg]
      generalize hs2 : ((({ s with dart_entrypoint_arguments := some rest } : State).emit
            (Call.g_strdupv (some rest))).emit
            (Call.g_application_register true)).emit Call.g_application_activate = s2
      have h2 : s2.trace = s.trace ++ [Call.g_strdupv (some rest),
          Call.g_application_register true, Call.g_application_activate] := by
        rw [← hs2]; simp [State.emit]
      have hf : s2.dart_entrypoint_arguments = some rest := by
        rw [← hs2]; rfl
      obtain ⟨project, view, hfw, hvw⟩ := activate_forwards_stored_arguments env s2
      have ht : (snowland_control_panel_activate env s2).trace = s.trace ++
          ([Call.g_strdupv (some rest), Call.g_application_register true,
            Call.g_application_activate] ++
            events_since s2 (snowland_control_panel_activate env s2)) := by
        rw [activate_trace_extends env s2, h2, List.append_assoc]
      refine ⟨snowland_control_panel_activate env s2, project, view, rfl, ?_, ?_, ?_⟩
      · rw [events_since_of_trace_eq ht]
        simp only [arguments_forwarded, List.filterMap_append] at hfw ⊢
        rw [hfw, hf]
        simp
      · rw [events_since_of_trace_eq ht]
        simp only [views_created, List.filterMap_append] at hvw ⊢
        rw [hvw]
        simp
      · rw [activate_keeps_arguments, hf]
        rfl
  · intro env2 s2
    obtain ⟨project, _, hfw, _⟩ := activate_forwards_stored_arguments env2 s2
    exact ⟨project, hfw, activate_keeps_arguments env2 s2⟩

/-- The forwarding theorem at a three-entry vector under GNOME Shell on X11. -/
theorem entrypoint_arguments_forwarded_verbatim_witness :
    1 ≤ ["snowland_control_panel", "--profile", "winter"].length ∧
    (∃ t project view,
      snowland_control_panel_local_command_line
        { gdk_windowing_x11 := true, screen_is_x11 := true,
          window_manager_name := some "GNOME Shell", register_error := none }
        (snowland_control_panel_new "snowland")
        ["snowland_control_panel", "--profile", "winter"] = Except.ok (true, 0, t) ∧
      arguments_forwarded (events_since (snowland_control_panel_new "snowland") t) =
        [(project, some ["--profile", "winter"])] ∧
      views_created (events_since (snowland_control_panel_new "snowland") t) =
        [(project, view)] ∧
      t.dart_entrypoint_arguments = some ["--profile", "winter"]) :=
  ⟨by decide,
    (entrypoint_arguments_forwarded_verbatim
      { gdk_windowing_x11 := true, screen_is_x11 := true,
        window_manager_name := some "GNOME Shell", register_error := none }
      (snowland_control_panel_new "snowland")
      ["snowland_control_panel", "--profile", "winter"] (by decide) rfl).1⟩

/-! ## Claims about `on_window_delete` and `snowland_control_panel_dispose` -/

/-- The calls of one run of the close handler. -/
theorem on_window_delete_trace (s : State) (window : Handle) (event : GdkEvent)
    (data : Handle) :
    (on_window_delete s window event data).2.trace = s.trace ++
      [Call.printf "Sending shutdown to event channel!\n",
       Call.fl_value_new_string "shutdown" (Handle.fresh s.next),
       Call.fl_event_channel_send data (Handle.fresh s.next) (FlValue.string "shutdown"),
       Call.fl_event_channel_send_end_of_stream data,
       Call.fl_value_unref (Handle.fresh s.next),
       Call.g_object_unref data] := by
  simp [on_window_delete, State.construct, State.emit, State.release, State.new_handle]

/-- An object that already exists is not the one the next constructor returns. -/
theorem allocated_ne_new_handle (s : State) (h : Handle) (ha : allocated s h = true) :
    h ≠ Handle.fresh s.next := by
  intro heq
  subst heq
  simp [allocated] at ha

/-- C3: every run of the close handler, whatever window, event and channel it
is given, sends on that channel exactly twice, first the string "shutdown" and
then the end-of-stream marker, and returns FALSE; the whole run is the six
calls listed. -/
theorem on_window_delete_sends_shutdown_then_end_of_stream (s : State) (window : Handle)
    (event : GdkEvent) (data : Handle) :
    (on_window_delete s window event data).1 = false ∧
    channel_sends (events_since s (on_window_delete s window event data).2) =
      [(data, some (FlValue.string "shutdown")), (data, none)] ∧
    ∃ value, events_since s (on_window_delete s window event data).2 =
      [Call.printf "Sending shutdown to event channel!\n",
       Call.fl_value_new_string "shutdown" value,
       Call.fl_event_channel_send data value (FlValue.string "shutdown"),
       Call.fl_event_channel_send_end_of_stream data,
       Call.fl_value_unref value,
       Call.g_object_unref data] := by
  have ht := events_since_of_trace_eq (on_window_delete_trace s window event data)
  refine ⟨rfl, ?_, Handle.fresh s.next, ht⟩
  rw [ht]
  simp [channel_sends]

/-- C5: disposal leaves the argument field null and frees exactly the vector
that was stored (nothing when the field was already null); a second disposal
frees nothing, only chains up to the parent class again, and leaves the field,
the object counter and the reference counts as the first disposal left them. -/
theorem dispose_twice_frees_once (s : State) :
    (snowland_control_panel_dispose s).dart_entrypoint_arguments = none ∧
    vectors_freed (events_since s (snowland_control_panel_dispose s)) =
      s.dart_entrypoint_arguments.toList ∧
    events_since (snowland_control_panel_dispose s)
      (snowland_control_panel_dispose (snowland_control_panel_dispose s)) =
      [Call.parent_dispose] ∧
    snowland_control_panel_dispose (snowland_control_panel_dispose s) =
      (snowland_control_panel_dispose s).emit Call.parent_dispose := by
  have hnull : (snowland_control_panel_dispose s).dart_entrypoint_arguments = none := by
    cases hs : s.dart_entrypoint_arguments <;>
      simp [snowland_control_panel_dispose, hs, State.emit]
  have hsecond : snowland_control_panel_dispose (snowland_control_panel_dispose s) =
      (snowland_control_panel_dispose s).emit Call.parent_dispose := by
    generalize snowland_control_panel_dispose s = t at hnull ⊢
    unfold snowland_control_panel_dispose
    rw [hnull]
  refine ⟨hnull, ?_, ?_, hsecond⟩
  · cases hs : s.dart_entrypoint_arguments with
    | none =>
      have ht : (snowland_control_panel_dispose s).trace = s.trace ++ [Call.parent_dispose] := by
        simp [snowland_control_panel_dispose, hs, State.emit]
      rw [events_since_of_trace_eq ht]
      simp [vectors_freed]
    | some v =>
      have ht : (snowland_control_panel_dispose s).trace =
          s.trace ++ [Call.g_strfreev v, Call.parent_dispose] := by
        simp [snowland_control_panel_dispose, hs, State.emit]
      rw [events_since_of_trace_eq ht]
      simp [vectors_freed]
  · rw [hsecond]
    exact events_since_of_trace_eq rfl

/-! ## Claims about `snowland_control_panel_activate` -/

/-- C7, counterexample: when the shell is built without `GDK_WINDOWING_X11`,
lines 52-60 are compiled out, and a window on an X11 screen whose window
manager is "i3" gets the header bar, not the plain title bar. -/
theorem x11_screen_without_x11_build_gets_header_bar :
    (true = true ∧ some "i3" ≠ some "GNOME Shell") ∧
    chrome_calls (events_since (snowland_control_panel_new "snowland")
      (snowland_control_panel_activate
        { gdk_windowing_x11 := false, screen_is_x11 := true,
          window_manager_name := some "i3", register_error := none }
        (snowland_control_panel_new "snowland"))) =
      [Call.gtk_header_bar_new (Handle.fresh 2),
       Call.gtk_header_bar_set_title (Handle.fresh 2) "Snowland control panel",
       Call.gtk_header_bar_set_show_close_button (Handle.fresh 2) true,
       Call.gtk_window_set_titlebar (Handle.fresh 1) (Handle.fresh 2)] ∧
    chrome_calls (events_since (snowland_control_panel_new "snowland")
      (snowland_control_panel_activate
        { gdk_windowing_x11 := false, screen_is_x11 := true,
          window_manager_name := some "i3", register_error := none }
        (snowland_control_panel_new "snowland"))) ≠
      [Call.gtk_window_set_title (Handle.fresh 1) "Snowland control panel"] :=
  ⟨⟨rfl, by decide⟩, by decide, by decide⟩

/-- C7, amended: for every environment, activation falls back to a plain title
bar exactly when the shell is built with `GDK_WINDOWING_X11` defined, the
window's screen is an X11 screen, and its window-manager name is not "GNOME
Shell" (a null name included); in every other case it installs a header bar
with the close button shown.  Either way the title is "Snowland control
panel", and only one of the two styles is applied. -/
theorem activate_window_chrome (env : Env) (s : State) :
    windows_created (events_since s (snowland_control_panel_activate env s)) =
      [Handle.fresh s.next] ∧
    ((env.gdk_windowing_x11 = true ∧ env.screen_is_x11 = true ∧
        env.window_manager_name ≠ some "GNOME Shell") ↔
      chrome_calls (events_since s (snowland_control_panel_activate env s)) =
        [Call.gtk_window_set_title (Handle.fresh s.next) "Snowland control panel"]) ∧
    (¬ (env.gdk_windowing_x11 = true ∧ env.screen_is_x11 = true ∧
        env.window_manager_name ≠ some "GNOME Shell") ↔
      ∃ bar, chrome_calls (events_since s (snowland_control_panel_activate env s)) =
        [Call.gtk_header_bar_new bar,
         Call.gtk_header_bar_set_title bar "Snowland control panel",
         Call.gtk_header_bar_set_show_close_button bar true,
         Call.gtk_window_set_titlebar (Handle.fresh s.next) bar]) := by
  rcases chrome_cases env with ⟨h1, h2, h3⟩ | h
  · rw [events_since_of_trace_eq (activate_trace_title_bar env s h1 h2 h3)]
    simp [windows_created, chrome_calls, h1, h2, h3]
  · rw [events_since_of_trace_eq (activate_trace_header_bar env s h)]
    have hn : ¬ (env.gdk_windowing_x11 = true ∧ env.screen_is_x11 = true ∧
        env.window_manager_name ≠ some "GNOME Shell") := by
      rintro ⟨hg, hs, hw⟩
      rcases h with h | h | h
      · rw [hg] at h; cases h
      · rw [hs] at h; cases h
      · exact hw h
    refine ⟨by simp [windows_created], ?_, ?_⟩
    · constructor
      · intro hc; exact absurd hc hn
      · intro hc; simp [chrome_calls] at hc
    · constructor
      · intro _; exact ⟨Handle.fresh (s.next + 1), by simp [chrome_calls]⟩
      · intro _; exact hn

/-- C9: one run of activation creates one window, one view and one event
channel; the channel is created on the messenger of the view's engine, under
the name "native_platform_events", with the standard method codec created just
before; then the default size 1280 by 720 is set and `on_window_delete` is
connected to "delete-event" of the window with that channel as its data, and
only then the window is shown, the view is shown, the view is added to the
window (its only child), plugins are registered and the view grabs focus. -/
theorem activate_creates_window_view_channel_in_order (env : Env) (s : State) :
    ∃ window project view codec channel before,
      events_since s (snowland_control_panel_activate env s) = before ++
        [Call.fl_event_channel_new (Handle.messenger (Handle.engine view))
           "native_platform_events" codec channel,
         Call.gtk_window_set_default_size window 1280 720,
         Call.g_signal_connect window "delete-event" Callback.on_window_delete channel,
         Call.gtk_widget_show window,
         Call.gtk_widget_show view,
         Call.gtk_container_add window view,
         Call.fl_register_plugins view,
         Call.gtk_widget_grab_focus view,
         Call.g_object_unref codec,
         Call.g_object_unref (Handle.messenger (Handle.engine view)),
         Call.g_object_unref project] ∧
      windows_created (events_since s (snowland_control_panel_activate env s)) = [window] ∧
      views_created (events_since s (snowland_control_panel_activate env s)) =
        [(project, view)] ∧
      channels_created (events_since s (snowland_control_panel_activate env s)) = [channel] ∧
      children_added window (events_since s (snowland_control_panel_activate env s)) =
        [view] ∧
      handlers_connected (events_since s (snowland_control_panel_activate env s)) =
        [(window, "delete-event", Callback.on_window_delete, channel)] ∧
      before.getLast? = some (Call.fl_standard_method_codec_new codec) ∧
      Call.gtk_widget_show window ∉ before ∧
      (∀ width height, Call.gtk_window_set_default_size window width height ∉ before) := by
  rcases chrome_cases env with ⟨h1, h2, h3⟩ | h
  · rw [events_since_of_trace_eq (activate_trace_title_bar env s h1 h2 h3)]
    refine ⟨Handle.fresh s.next, Handle.fresh (s.next + 1), Handle.fresh (s.next + 2),
      Handle.fresh (s.next + 3), Handle.fresh (s.next + 4),
      [Call.gtk_application_window_new (Handle.fresh s.next),
       Call.gtk_window_set_title (Handle.fresh s.next) "Snowland control panel",
       Call.fl_dart_project_new (Handle.fresh (s.next + 1)),
       Call.fl_dart_project_set_dart_entrypoint_arguments (Handle.fresh (s.next + 1))
         s.dart_entrypoint_arguments,
       Call.fl_view_new (Handle.fresh (s.next + 1)) (Handle.fresh (s.next + 2)),
       Call.fl_standard_method_codec_new (Handle.fresh (s.next + 3))],
      rfl, ?_, ?_, ?_, ?_, ?_, ?_, ?_, ?_⟩ <;>
    simp [windows_created, views_created, channels_created, children_added, handlers_connected]
  · rw [events_since_of_trace_eq (activate_trace_header_bar env s h)]
    refine ⟨Handle.fresh s.next, Handle.fresh (s.next + 2), Handle.fresh (s.next + 3),
      Handle.fresh (s.next + 4), Handle.fresh (s.next + 5),
      [Call.gtk_application_window_new (Handle.fresh s.next),
       Call.gtk_header_bar_new (Handle.fresh (s.next + 1)),
       Call.gtk_widget_show (Handle.fresh (s.next + 1)),
       Call.gtk_header_bar_set_title (Handle.fresh (s.next + 1)) "Snowland control panel",
       Call.gtk_header_bar_set_show_close_button (Handle.fresh (s.next + 1)) true,
       Call.gtk_window_set_titlebar (Handle.fresh s.next) (Handle.fresh (s.next + 1)),
       Call.fl_dart_project_new (Handle.fresh (s.next + 2)),
       Call.fl_dart_project_set_dart_entrypoint_arguments (Handle.fresh (s.next + 2))
         s.dart_entrypoint_arguments,
       Call.fl_view_new (Handle.fresh (s.next + 2)) (Handle.fresh (s.next + 3)),
       Call.fl_standard_method_codec_new (Handle.fresh (s.next + 4))],
      rfl, ?_, ?_, ?_, ?_, ?_, ?_, ?_, ?_⟩ <;>
    simp [windows_created, views_created, channels_created, children_added, handlers_connected]

/-- Each run of the close handler takes one reference away from an existing
channel. -/
theorem on_window_delete_releases_one (t : State) (window : Handle) (event : GdkEvent)
    (channel : Handle) (ha : allocated t channel = true) :
    (on_window_delete t window event channel).2.refs channel = t.refs channel - 1 := by
  have hne := allocated_ne_new_handle t channel ha
  simp [on_window_delete, State.construct, State.emit, State.release, State.new_handle, hne]

/-- C10: activation leaves the shell with one reference on the channel it
created and connects the close handler with that channel as plain user data;
every run of the handler on a state where the channel exists lowers the
shell's count on it by one.  So after the first run on the activated window
the count is zero and the channel is no longer live for the shell, which is
what a second run would require. -/
theorem close_handler_releases_channel_reference (env : Env) (s : State) (window : Handle)
    (event : GdkEvent) :
    ∃ channel,
      channels_created (events_since s (snowland_control_panel_activate env s)) = [channel] ∧
      handlers_connected (events_since s (snowland_control_panel_activate env s)) =
        [(Handle.fresh s.next, "delete-event", Callback.on_window_delete, channel)] ∧
      (snowland_control_panel_activate env s).refs channel = 1 ∧
      live (snowland_control_panel_activate env s) channel = true ∧
      (∀ (t : State) (w : Handle) (e : GdkEvent), allocated t channel = true →
        (on_window_delete t w e channel).2.refs channel = t.refs channel - 1) ∧
      (on_window_delete (snowland_control_panel_activate env s) window event channel).2.refs
        channel = 0 ∧
      live (on_window_delete (snowland_control_panel_activate env s) window event channel).2
        channel = false := by
  rcases chrome_cases env with ⟨h1, h2, h3⟩ | h
  · obtain ⟨hr, hn⟩ := activate_refs_title_bar env s h1 h2 h3
    have ha : allocated (snowland_control_panel_activate env s) (Handle.fresh (s.next + 4)) =
        true := by
      simp [allocated, hn]
    have h0 := on_window_delete_releases_one _ window event _ ha
    rw [hr] at h0
    rw [events_since_of_trace_eq (activate_trace_title_bar env s h1 h2 h3)]
    refine ⟨Handle.fresh (s.next + 4), by simp [channels_created],
      by simp [handlers_connected], hr, by simp [live, hr],
      fun t w e hat => on_window_delete_releases_one t w e _ hat, by simpa using h0, ?_⟩
    simp [live, h0]
  · obtain ⟨hr, hn⟩ := activate_refs_header_bar env s h
    have ha : allocated (snowland_control_panel_activate env s) (Handle.fresh (s.next + 5)) =
        true := by
      simp [allocated, hn]
    have h0 := on_window_delete_releases_one _ window event _ ha
    rw [hr] at h0
    rw [events_since_of_trace_eq (activate_trace_header_bar env s h)]
    refine ⟨Handle.fresh (s.next + 5), by simp [channels_created],
      by simp [handlers_connected], hr, by simp [live, hr],
      fun t w e hat => on_window_delete_releases_one t w e _ hat, by simpa using h0, ?_⟩
    simp [live, h0]

/-! ## Claims about the lifecycle -/

/-- Every operation that succeeds adds as many windows and channels as it runs
activation. -/
theorem step_adds_per_activation (env : Env) (s t : State) (op : Op)
    (h : step env s op = Except.ok t) :
    (windows_created t.trace).length =
      (windows_created s.trace).length + activation_runs env [op] ∧
    (channels_created t.trace).length =
      (channels_created s.trace).length + activation_runs env [op] := by
  cases op with
  | local_command_line arguments =>
    cases arguments with
    | nil =>
      have hf : step env s (Op.local_command_line []) =
          Except.error Fault.out_of_bounds_read := rfl
      rw [hf] at h; cases h
    | cons a rest =>
      cases hreg : env.register_error with
      | none =>
        simp only [step, local_command_line_register_success env s a rest hreg] at h
        cases h
        have hc := activate_adds_one_window_one_channel env
          (((({ s with dart_entrypoint_arguments := some rest } : State).emit
            (Call.g_strdupv (some rest))).emit
            (Call.g_application_register true)).emit Call.g_application_activate)
        rw [hc.1, hc.2]
        simp [activation_runs, hreg, State.emit, windows_created, channels_created,
          List.filterMap_append]
      | some message =>
        simp only [step, local_command_line_register_failure env s a rest message hreg] at h
        cases h
        simp [activation_runs, hreg, State.emit, windows_created, channels_created,
          List.filterMap_append]
  | activate =>
    simp only [step] at h
    cases h
    simpa [activation_runs] using activate_adds_one_window_one_channel env s
  | window_delete window event data =>
    simp only [step] at h
    cases h
    rw [on_window_delete_trace]
    simp [activation_runs, windows_created, channels_created, List.filterMap_append]
  | dispose =>
    simp only [step] at h
    cases h
    cases hs : s.dart_entrypoint_arguments <;>
      simp [snowland_control_panel_dispose, hs, State.emit, activation_runs, windows_created,
        channels_created, List.filterMap_append]

/-- Along any successful run, windows and channels grow by the number of
activation runs. -/
theorem run_adds_per_activation (env : Env) (ops : List Op) :
    ∀ (s t : State), run env s ops = Except.ok t →
      (windows_created t.trace).length =
        (windows_created s.trace).length + activation_runs env ops ∧
      (channels_created t.trace).length =
        (channels_created s.trace).length + activation_runs env ops := by
  induction ops with
  | nil =>
    intro s t h
    simp only [run] at h
    cases h
    simp [activation_runs]
  | cons op ops ih =>
    intro s t h
    simp only [run] at h
    cases hstep : step env s op with
    | error f => rw [hstep] at h; cases h
    | ok u =>
      rw [hstep] at h
      have h1 := step_adds_per_activation env s u op hstep
      have h2 := ih u t h
      have hsplit : activation_runs env (op :: ops) =
          activation_runs env [op] + activation_runs env ops := by
        cases op <;> simp [activation_runs]
      rw [h2.1, h2.2, h1.1, h1.2, hsplit]
      omega

/-- C6, counterexample: after the command line has been handled with
successful registration, one more run of the activation logic leaves two
windows and two event channels created for the one application instance. -/
theorem second_activation_creates_second_window :
    ∃ t, run { gdk_windowing_x11 := true, screen_is_x11 := false,
               window_manager_name := none, register_error := none }
          (snowland_control_panel_new "snowland")
          [Op.local_command_line ["snowland_control_panel"], Op.activate] = Except.ok t ∧
      windows_created t.trace = [Handle.fresh 1, Handle.fresh 7] ∧
      channels_created t.trace = [Handle.fresh 6, Handle.fresh 12] ∧
      ¬ (windows_created t.trace).length ≤ 1 ∧
      ¬ (channels_created t.trace).length ≤ 1 :=
  ⟨_, rfl, by decide, by decide, by decide, by decide⟩

/-- C6, amended: in every state reached from a new application instance by
any sequence of operations, the number of windows created and the number of
event channels created both equal the number of times the activation logic
has run. -/
theorem windows_and_channels_match_activation_runs (env : Env) (APPLICATION_ID : String)
    (ops : List Op) (t : State)
    (h : run env (snowland_control_panel_new APPLICATION_ID) ops = Except.ok t) :
    (windows_created t.trace).length = activation_runs env ops ∧
    (channels_created t.trace).length = activation_runs env ops := by
  have hr := run_adds_per_activation env ops _ t h
  have hw : windows_created (snowland_control_panel_new APPLICATION_ID).trace = [] := rfl
  have hc : channels_created (snowland_control_panel_new APPLICATION_ID).trace = [] := rfl
  rw [hw] at hr
  rw [hc] at hr
  simpa using hr

/-- The lifecycle theorem at a run that starts up, closes the window and
disposes: one window and one channel. -/
theorem windows_and_channels_match_activation_runs_witness :
    ∃ t, run { gdk_windowing_x11 := true, screen_is_x11 := true,
               window_manager_name := some "GNOME Shell", register_error := none }
          (snowland_control_panel_new "snowland")
          [Op.local_command_line ["snowland_control_panel", "--profile"],
           Op.window_delete (Handle.fresh 1) 0 (Handle.fresh 6), Op.dispose] = Except.ok t ∧
      (windows_created t.trace).length = 1 ∧ (channels_created t.trace).length = 1 :=
  ⟨_, rfl, windows_and_channels_match_activation_runs
    { gdk_windowing_x11 := true, screen_is_x11 := true,
      window_manager_name := some "GNOME Shell", register_error := none }
    "snowland"
    [Op.local_command_line ["snowland_control_panel", "--profile"],
     Op.window_delete (Handle.fresh 1) 0 (Handle.fresh 6), Op.dispose] _ rfl⟩

end Snowland
